import Mathlib

/-!
Shallow embedding of the two agent modules of this repository,
agents/ocr_agent.py and agents/ai_agent.py.

External collaborators are modelled as explicit function parameters:
image decoding (cv2.imread returns none on an undecodable path),
the OCR primitive (a map from a possibly-missing decoded image to engine
output), and the model runtime (a map from rendered prompt to response
text). Python dictionaries are modelled as insertion-ordered association
lists with overwriting insertion; Python str.strip is String.trim,
str.upper is String.toUpper, str.split on a newline is String.splitOn,
and a Python list comprehension or accumulation loop is a fold or filter.
-/

/-- Python str.strip: drop leading and trailing whitespace. Implemented
structurally over the character list so that concrete instances evaluate. -/
def pyStrip (s : String) : String :=
  String.mk (((s.toList.dropWhile Char.isWhitespace).reverse.dropWhile Char.isWhitespace).reverse)

/-- Python str.upper: uppercase every character. -/
def pyUpper (s : String) : String :=
  String.mk (s.toList.map Char.toUpper)

/-- Python str.split on a single separator character, as used with a newline
in the source: splitting the empty string yields one empty piece, and every
separator occurrence starts a new piece. -/
def splitOnChar (c : Char) (s : String) : List String :=
  (s.toList.foldr
    (fun ch acc =>
      if ch = c then [] :: acc
      else
        match acc with
        | g :: gs => (ch :: g) :: gs
        | [] => [[ch]])
    [[]]).map String.mk

/-- Python str.split with a maxsplit of one, as in line.split on a colon in
the source: none when the separator does not occur, otherwise the pieces
before and after its first occurrence. -/
def pySplitFirst (c : Char) (s : String) : Option (String × String) :=
  match (s.toList.span fun ch => ch ≠ c) with
  | (_, []) => none
  | (before, _ :: after) => some (String.mk before, String.mk after)

/-- One piece of a prompt template: fixed text or a named insertion point.
Models the template strings handed to PromptTemplate in the source, where
an insertion point is a name referenced by input_variables. -/
inductive TplPart where
  | lit : String → TplPart
  | slot : String → TplPart
deriving Repr, DecidableEq

/-- A prompt template is a sequence of literal pieces and insertion points. -/
abbrev Template := List TplPart

/-- The insertion-point names referenced by a template. -/
def Template.slotNames (t : Template) : List String :=
  t.filterMap fun p =>
    match p with
    | .lit _ => none
    | .slot n => some n

/-- Literal, non-recursive substitution of each insertion point by its
parameter value; a missing parameter contributes the empty string (callers
that validate first never hit that default). -/
def renderTemplate (t : Template) (params : String → Option String) : String :=
  String.join (t.map fun p =>
    match p with
    | .lit s => s
    | .slot n => (params n).getD "")

/-- The result record of extract_text_with_confidence, ocr_agent.py lines
191 to 196, without the raw engine details field, which is opaque engine
data. Confidence is an exact rational, embedding the Python float average
of integer scores. -/
structure OCRResult where
  text : String
  confidence : ℚ
  word_count : ℕ
deriving Repr, DecidableEq

/-- The confidence-aggregation block of extract_text_with_confidence,
ocr_agent.py lines 179 to 196: keep the tokens whose integer confidence is
strictly positive, join their texts with single spaces and trim, average
the kept confidences (0 when none were kept), and count the kept tokens.
The engine token list pairs each token text with its confidence score. -/
def confidence_aggregate (data : List (String × Int)) : OCRResult :=
  let kept := data.filter fun t => 0 < t.2
  let text_parts := kept.map Prod.fst
  let confidences := kept.map Prod.snd
  let full_text := String.intercalate " " text_parts
  let avg_confidence : ℚ :=
    if confidences.isEmpty then 0 else (confidences.sum : ℚ) / confidences.length
  { text := pyStrip full_text, confidence := avg_confidence, word_count := text_parts.length }

/-- The external image collaborators of the OCR agent: cv2.imread, which
yields none on a failed decode, grayscale conversion, denoising, and
adaptive thresholding. -/
structure CVOps (Img : Type) where
  imread : String → Option Img
  toGray : Img → Img
  denoise : Img → Img
  adaptiveThreshold : Img → Img

/-- preprocess_image, ocr_agent.py lines 64 to 109, on a string path: decode
the path, raise the load-failure error when decoding yields nothing, convert
to grayscale, and when enhance is set apply denoising then adaptive
thresholding. -/
def preprocess_image {Img : Type} (cv : CVOps Img) (image : String) (enhance : Bool) :
    Except String Img :=
  match cv.imread image with
  | none => .error "Failed to load image"
  | some img =>
    let gray := cv.toGray img
    if enhance then .ok (cv.adaptiveThreshold (cv.denoise gray)) else .ok gray

/-- extract_text, ocr_agent.py lines 111 to 145, on a string path: with
preprocess set, run preprocess_image (enhance defaulted to true); otherwise
hand the raw decode result, which may be none, straight to the OCR
primitive; the engine text is trimmed. The OCR primitive takes the possibly
missing image and the custom engine configuration string. -/
def extract_text {Img : Type} (cv : CVOps Img)
    (image_to_string : Option Img → String → String)
    (image : String) (preprocess : Bool) (config : String) : Except String String :=
  match (if preprocess then (preprocess_image cv image true).map some else .ok (cv.imread image)) with
  | .error e => .error e
  | .ok processed_img => .ok (pyStrip (image_to_string processed_img config))

/-- extract_text_with_confidence, ocr_agent.py lines 147 to 196, on a string
path: same image handling as extract_text, then the confidence aggregation
over the token list the OCR primitive returns for the handed image. -/
def extract_text_with_confidence {Img : Type} (cv : CVOps Img)
    (image_to_data : Option Img → List (String × Int))
    (image : String) (preprocess : Bool) : Except String OCRResult :=
  match (if preprocess then (preprocess_image cv image true).map some else .ok (cv.imread image)) with
  | .error e => .error e
  | .ok processed_img => .ok (confidence_aggregate (image_to_data processed_img))

/-- Filtering then projecting the confidence component commutes with
projecting then filtering. -/
theorem map_snd_filter_pos (l : List (String × Int)) :
    ((l.filter fun t => 0 < t.2).map Prod.snd) = (l.map Prod.snd).filter fun c => 0 < c := by
  induction l with
  | nil => rfl
  | cons h t ih =>
    by_cases hp : 0 < h.2
    · simp [List.filter_cons, hp, ih]
    · simp [List.filter_cons, hp, ih]

/-- The aggregation block satisfies the positive-mean contract: the word
count is the number of strictly positive scores, the confidence is their
mean when any exist, and the empty case yields zeroes and empty text. -/
theorem confidence_aggregate_props (data : List (String × Int)) :
    (confidence_aggregate data).word_count
        = ((data.map Prod.snd).filter fun c => 0 < c).length ∧
    (((data.map Prod.snd).filter fun c => 0 < c) ≠ [] →
      (confidence_aggregate data).confidence
        = ((((data.map Prod.snd).filter fun c => 0 < c).sum : ℚ)
            / ((data.map Prod.snd).filter fun c => 0 < c).length)) ∧
    (((data.map Prod.snd).filter fun c => 0 < c) = [] →
      (confidence_aggregate data).confidence = 0 ∧
      (confidence_aggregate data).word_count = 0 ∧
      (confidence_aggregate data).text = "") := by
  have hsnd := map_snd_filter_pos data
  refine ⟨?_, ?_, ?_⟩
  · simp [confidence_aggregate, ← hsnd]
  · intro hne
    rw [← hsnd] at hne
    have hemp : ((data.filter fun t => 0 < t.2).map Prod.snd).isEmpty = false := by
      simpa [List.isEmpty_iff] using hne
    simp [confidence_aggregate, hemp, ← hsnd]
  · intro hnil
    rw [← hsnd] at hnil
    have hkept : (data.filter fun t => 0 < t.2) = [] := by
      simpa using hnil
    simp [confidence_aggregate, hkept]
    decide

/-- A trivial image universe and decoding environment for concrete runs:
every path decodes and every processing step is the identity. -/
def unit_cv : CVOps Unit :=
  { imread := fun _ => some (), toGray := id, denoise := id, adaptiveThreshold := id }

/-- A decoding environment in which no path decodes. -/
def none_cv : CVOps Unit :=
  { imread := fun _ => none, toGray := id, denoise := id, adaptiveThreshold := id }

/-- C1: for every token list returned by the OCR primitive,
extract_text_with_confidence returns a confidence equal to the arithmetic
mean of exactly the strictly positive token scores and a word count equal
to the number of such tokens; with no strictly positive score it returns
confidence 0, word count 0 and empty text. In particular token confidences
90, -1, 80, 0 give confidence 85 and word count 2. -/
theorem c1_confidence_positive_mean :
    (∀ (Img : Type) (cv : CVOps Img) (image_to_data : Option Img → List (String × Int))
        (image : String) (preprocess : Bool) (r : OCRResult),
      extract_text_with_confidence cv image_to_data image preprocess = Except.ok r →
      ∃ img : Option Img,
        r.word_count = (((image_to_data img).map Prod.snd).filter fun c => 0 < c).length ∧
        ((((image_to_data img).map Prod.snd).filter fun c => 0 < c) ≠ [] →
          r.confidence
            = (((((image_to_data img).map Prod.snd).filter fun c => 0 < c).sum : ℚ)
                / (((image_to_data img).map Prod.snd).filter fun c => 0 < c).length)) ∧
        ((((image_to_data img).map Prod.snd).filter fun c => 0 < c) = [] →
          r.confidence = 0 ∧ r.word_count = 0 ∧ r.text = "")) ∧
    extract_text_with_confidence unit_cv
        (fun _ => [("alpha", 90), ("beta", -1), ("gamma", 80), ("delta", 0)]) "doc.png" false
      = Except.ok { text := "alpha gamma", confidence := 85, word_count := 2 } := by
  constructor
  · intro Img cv image_to_data image preprocess r h
    cases preprocess with
    | false =>
      refine ⟨cv.imread image, ?_⟩
      simp only [extract_text_with_confidence, Bool.false_eq_true, if_false] at h
      obtain rfl : confidence_aggregate (image_to_data (cv.imread image)) = r := by
        simpa using h
      exact confidence_aggregate_props (image_to_data (cv.imread image))
    | true =>
      cases hpre : preprocess_image cv image true with
      | error e =>
        simp only [extract_text_with_confidence, if_true, hpre, Except.map] at h
        cases h
      | ok i =>
        refine ⟨some i, ?_⟩
        simp only [extract_text_with_confidence, if_true, hpre, Except.map] at h
        obtain rfl : confidence_aggregate (image_to_data (some i)) = r := by
          simpa using h
        exact confidence_aggregate_props (image_to_data (some i))
  · simp only [extract_text_with_confidence, unit_cv, Bool.false_eq_true, if_false]
    simp only [confidence_aggregate]
    norm_num
    decide

/-- Witness for C1 at a concrete run with one positive and one excluded
token. -/
theorem c1_confidence_positive_mean_witness :
    ∃ img : Option Unit,
      ({ text := "tok", confidence := 7, word_count := 1 } : OCRResult).word_count
          = ((([("tok", (7 : Int)), ("bad", -2)]).map Prod.snd).filter fun c => 0 < c).length ∧
      (((([("tok", (7 : Int)), ("bad", -2)]).map Prod.snd).filter fun c => 0 < c) ≠ [] →
        ({ text := "tok", confidence := 7, word_count := 1 } : OCRResult).confidence
          = ((((([("tok", (7 : Int)), ("bad", -2)]).map Prod.snd).filter fun c => 0 < c).sum : ℚ)
              / ((([("tok", (7 : Int)), ("bad", -2)]).map Prod.snd).filter fun c => 0 < c).length)) ∧
      (((([("tok", (7 : Int)), ("bad", -2)]).map Prod.snd).filter fun c => 0 < c) = [] →
        ({ text := "tok", confidence := 7, word_count := 1 } : OCRResult).confidence = 0 ∧
        ({ text := "tok", confidence := 7, word_count := 1 } : OCRResult).word_count = 0 ∧
        ({ text := "tok", confidence := 7, word_count := 1 } : OCRResult).text = "") :=
  c1_confidence_positive_mean.1 Unit unit_cv (fun _ => [("tok", 7), ("bad", -2)]) "doc.png" false
    { text := "tok", confidence := 7, word_count := 1 }
    (by simp only [extract_text_with_confidence, unit_cv, Bool.false_eq_true, if_false,
          confidence_aggregate]
        norm_num
        decide)

/-- C10: the undecodable-image guard is performed only inside
preprocess_image; with preprocess disabled, extract_text and
extract_text_with_confidence hand the failed decode result, none, straight
to the OCR primitive and succeed, while the preprocessing path raises the
load-failure error. -/
theorem c10_load_guard_only_in_preprocess :
    ∀ (Img : Type) (cv : CVOps Img)
      (image_to_string : Option Img → String → String)
      (image_to_data : Option Img → List (String × Int))
      (image : String) (enhance : Bool) (config : String),
      cv.imread image = none →
      preprocess_image cv image enhance = Except.error "Failed to load image" ∧
      extract_text cv image_to_string image false config
        = Except.ok (pyStrip (image_to_string none config)) ∧
      extract_text_with_confidence cv image_to_data image false
        = Except.ok (confidence_aggregate (image_to_data none)) ∧
      extract_text cv image_to_string image true config
        = Except.error "Failed to load image" ∧
      extract_text_with_confidence cv image_to_data image true
        = Except.error "Failed to load image" := by
  intro Img cv image_to_string image_to_data image enhance config hnone
  have hpre : preprocess_image cv image true = Except.error "Failed to load image" := by
    simp [preprocess_image, hnone]
  refine ⟨?_, ?_, ?_, ?_, ?_⟩
  · simp [preprocess_image, hnone]
  · simp [extract_text, hnone]
  · simp [extract_text_with_confidence, hnone]
  · simp [extract_text, hpre, Except.map]
  · simp [extract_text_with_confidence, hpre, Except.map]

/-- Witness for C10 with a decoding environment in which no path decodes. -/
theorem c10_load_guard_only_in_preprocess_witness :
    preprocess_image none_cv "bad.png" true = Except.error "Failed to load image" ∧
    extract_text none_cv (fun _ _ => " x ") "bad.png" false ""
      = Except.ok (pyStrip " x ") ∧
    extract_text_with_confidence none_cv (fun _ => [("a", 1)]) "bad.png" false
      = Except.ok (confidence_aggregate [("a", 1)]) ∧
    extract_text none_cv (fun _ _ => " x ") "bad.png" true ""
      = Except.error "Failed to load image" ∧
    extract_text_with_confidence none_cv (fun _ => [("a", 1)]) "bad.png" true
      = Except.error "Failed to load image" :=
  c10_load_guard_only_in_preprocess Unit none_cv (fun _ _ => " x ") (fun _ => [("a", 1)])
    "bad.png" true "" rfl

/-- The summary analysis template of analyze_extracted_text, ocr_agent.py
lines 209 to 214. -/
def summary_template : Template :=
  [.lit "Provide a concise summary of the following text:\n\nText: ", .slot "text",
   .lit "\n\nSummary:"]

/-- The key-points analysis template, lines 215 to 219. -/
def key_points_template : Template :=
  [.lit "Extract the key points from the following text:\n\nText: ", .slot "text",
   .lit "\n\nKey Points:"]

/-- The named-entities analysis template, lines 220 to 224. -/
def entities_template : Template :=
  [.lit "Extract named entities (people, organizations, locations, dates) from the following text:\n\nText: ",
   .slot "text", .lit "\n\nEntities:"]

/-- The document-classification analysis template, lines 225 to 229. -/
def classification_template : Template :=
  [.lit "Classify the type of document this text is from (e.g., invoice, letter, form, receipt):\n\nText: ",
   .slot "text", .lit "\n\nDocument Type:"]

/-- The analysis-template dictionary of analyze_extracted_text, keyed by
analysis type, in source order. -/
def analysis_templates : List (String × Template) :=
  [("summary", summary_template), ("key_points", key_points_template),
   ("entities", entities_template), ("classification", classification_template)]

/-- analyze_extracted_text, ocr_agent.py lines 198 to 238: select a template
by analysis type with a dictionary get defaulting to the summary template,
render the prompt with the text, send it to the model runtime, and trim the
response. The model runtime is the function parameter from rendered prompt
to response. -/
def analyze_extracted_text (model : String → String) (text : String) (analysis_type : String) :
    String :=
  let template := (analysis_templates.lookup analysis_type).getD summary_template
  let prompt := renderTemplate template fun k => if k == "text" then some text else none
  pyStrip (model prompt)

/-- C5: for every analysis type outside the four recognized keys,
analyze_extracted_text behaves identically to the summary analysis on the
same text: the same template is selected, hence the same prompt is rendered
and, for one model runtime, the same string is returned; the fallback is
silent. -/
theorem c5_unknown_kind_is_summary :
    ∀ (model : String → String) (text : String) (analysis_type : String),
      analysis_type ∉ ["summary", "key_points", "entities", "classification"] →
      analyze_extracted_text model text analysis_type
        = analyze_extracted_text model text "summary" := by
  intro model text analysis_type hk
  have h1 : analysis_type ≠ "summary" := by intro h; exact hk (by simp [h])
  have h2 : analysis_type ≠ "key_points" := by intro h; exact hk (by simp [h])
  have h3 : analysis_type ≠ "entities" := by intro h; exact hk (by simp [h])
  have h4 : analysis_type ≠ "classification" := by intro h; exact hk (by simp [h])
  have hlk : analysis_templates.lookup analysis_type = none := by
    simp [analysis_templates, List.lookup, beq_eq_false_iff_ne.mpr h1,
      beq_eq_false_iff_ne.mpr h2, beq_eq_false_iff_ne.mpr h3, beq_eq_false_iff_ne.mpr h4]
  simp only [analyze_extracted_text]
  rw [hlk]
  rfl

/-- Witness for C5 at the unknown analysis kind from the spec example. -/
theorem c5_unknown_kind_is_summary_witness :
    analyze_extracted_text (fun p => p) "some text" "unknown_kind"
      = analyze_extracted_text (fun p => p) "some text" "summary" :=
  c5_unknown_kind_is_summary (fun p => p) "some text" "unknown_kind" (by decide)

/-- The per-document result record of process_document, ocr_agent.py lines
260 to 274: source reference, extracted text, confidence, word count, and
the optional analysis entry, present exactly when the analysis branch
executed. -/
structure DocResult where
  image_path : String
  extracted_text : String
  confidence : ℚ
  word_count : ℕ
  analysis : Option String
deriving Repr, DecidableEq

/-- process_document, ocr_agent.py lines 240 to 274: extract text with
confidence on the preprocessing path, build the base result, and add the
analysis entry only when analysis was requested and the extracted text is
non-empty (Python string truthiness); any extraction failure propagates. -/
def process_document {Img : Type} (cv : CVOps Img)
    (image_to_data : Option Img → List (String × Int)) (model : String → String)
    (image_path : String) (analyze : Bool) (analysis_type : String) :
    Except String DocResult :=
  match extract_text_with_confidence cv image_to_data image_path true with
  | .error e => .error e
  | .ok ocr_result =>
    let result : DocResult :=
      { image_path := image_path, extracted_text := ocr_result.text,
        confidence := ocr_result.confidence, word_count := ocr_result.word_count,
        analysis := none }
    if analyze ∧ ocr_result.text ≠ "" then
      .ok { result with
            analysis := some (analyze_extracted_text model ocr_result.text analysis_type) }
    else
      .ok result

/-- One entry of the batch_process output, ocr_agent.py lines 293 to 304:
either a per-document result or an error record pairing the failed entry
source reference with the error description. -/
inductive BatchEntry where
  | ok : DocResult → BatchEntry
  | err : String → String → BatchEntry
deriving Repr, DecidableEq

/-- batch_process, ocr_agent.py lines 276 to 304: process each path in
order, catching a per-item failure and recording it as an error entry for
that path alone. -/
def batch_process {Img : Type} (cv : CVOps Img)
    (image_to_data : Option Img → List (String × Int)) (model : String → String)
    (image_paths : List String) (analyze : Bool) (analysis_type : String) :
    List BatchEntry :=
  image_paths.map fun image_path =>
    match process_document cv image_to_data model image_path analyze analysis_type with
    | .ok result => .ok result
    | .error e => .err image_path e

/-- C4: whenever extraction succeeds, process_document succeeds with the
source reference, extracted text, confidence and word count of the
extraction, and its result carries an analysis entry exactly when analysis
was requested and the extracted text is non-empty; an empty text never
makes it fail. -/
theorem c4_analysis_iff_requested_and_nonempty :
    ∀ (Img : Type) (cv : CVOps Img)
      (image_to_data : Option Img → List (String × Int)) (model : String → String)
      (image_path : String) (analyze : Bool) (analysis_type : String) (o : OCRResult),
      extract_text_with_confidence cv image_to_data image_path true = Except.ok o →
      ∃ r : DocResult,
        process_document cv image_to_data model image_path analyze analysis_type
          = Except.ok r ∧
        r.image_path = image_path ∧
        r.extracted_text = o.text ∧
        r.confidence = o.confidence ∧
        r.word_count = o.word_count ∧
        (r.analysis.isSome ↔ (analyze = true ∧ r.extracted_text ≠ "")) := by
  intro Img cv image_to_data model image_path analyze analysis_type o hE
  by_cases hbranch : analyze = true ∧ o.text ≠ ""
  · refine ⟨⟨image_path, o.text, o.confidence, o.word_count,
      some (analyze_extracted_text model o.text analysis_type)⟩, ?_⟩
    simp only [process_document, hE]
    rw [if_pos (by simpa using hbranch)]
    simp [hbranch]
  · refine ⟨⟨image_path, o.text, o.confidence, o.word_count, none⟩, ?_⟩
    simp only [process_document, hE]
    rw [if_neg (by simpa using hbranch)]
    simp [hbranch]

/-- Witness for C4 at a concrete run whose extraction yields empty text
while analysis is requested: the result is normal and carries no analysis
entry. -/
theorem c4_analysis_iff_requested_and_nonempty_witness :
    ∃ r : DocResult,
      process_document unit_cv (fun _ => []) (fun p => p) "doc.png" true "summary"
        = Except.ok r ∧
      r.image_path = "doc.png" ∧
      r.extracted_text = (confidence_aggregate []).text ∧
      r.confidence = (confidence_aggregate []).confidence ∧
      r.word_count = (confidence_aggregate []).word_count ∧
      (r.analysis.isSome ↔ (true = true ∧ r.extracted_text ≠ "")) :=
  c4_analysis_iff_requested_and_nonempty Unit unit_cv (fun _ => []) (fun p => p) "doc.png"
    true "summary" (confidence_aggregate []) rfl

/-- C2: batch_process returns exactly one outcome per input path in input
order: the entry at each index is the per-document result when
process_document succeeds on that path, and otherwise an error record
carrying that path and the error description; the batch itself is a total
function and never aborts. -/
theorem c2_batch_isolates_failures :
    ∀ (Img : Type) (cv : CVOps Img)
      (image_to_data : Option Img → List (String × Int)) (model : String → String)
      (image_paths : List String) (analyze : Bool) (analysis_type : String),
      (batch_process cv image_to_data model image_paths analyze analysis_type).length
        = image_paths.length ∧
      ∀ (i : ℕ) (p : String), image_paths[i]? = some p →
        (batch_process cv image_to_data model image_paths analyze analysis_type)[i]?
          = some (match process_document cv image_to_data model p analyze analysis_type with
                  | .ok result => .ok result
                  | .error e => .err p e) := by
  intro Img cv image_to_data model image_paths analyze analysis_type
  constructor
  · simp [batch_process]
  · intro i p hp
    simp [batch_process, List.getElem?_map, hp]

/-- Witness for C2 on a two-path batch whose second path fails to decode:
the first entry is a normal result and the second is the error record for
that path alone. -/
theorem c2_batch_isolates_failures_witness :
    (batch_process (⟨fun p => if p == "a.png" then some () else none, id, id, id⟩ : CVOps Unit)
        (fun _ => []) (fun q => q) ["a.png", "bad.png"] false "summary")[1]?
      = some (match process_document
                  (⟨fun p => if p == "a.png" then some () else none, id, id, id⟩ : CVOps Unit)
                  (fun _ => []) (fun q => q) "bad.png" false "summary" with
              | .ok result => .ok result
              | .error e => .err "bad.png" e) :=
  (c2_batch_isolates_failures Unit
      (⟨fun p => if p == "a.png" then some () else none, id, id, id⟩ : CVOps Unit)
      (fun _ => []) (fun q => q) ["a.png", "bad.png"] false "summary").2 1 "bad.png" rfl

/-- Overwriting insertion into an insertion-ordered association list: the
update of a Python dictionary entry. An existing key keeps its position and
receives the new value; a new key is appended. -/
def dictInsert (d : List (String × String)) (k v : String) : List (String × String) :=
  if d.any fun p => p.1 == k then
    d.map fun p => if p.1 == k then (k, v) else p
  else
    d ++ [(k, v)]

/-- One iteration of the response-parsing loop of extract_structured_data,
ocr_agent.py lines 335 to 339: a line containing a colon is split on its
first colon and inserted with both sides stripped; any other line is
ignored. -/
def parseStep (result : List (String × String)) (line : String) : List (String × String) :=
  match pySplitFirst ':' line with
  | some kv => dictInsert result (pyStrip kv.1) (pyStrip kv.2)
  | none => result

/-- The fields-extraction template of extract_structured_data, ocr_agent.py
lines 318 to 329. -/
def extraction_template : Template :=
  [.lit "Extract the following fields from the text: ", .slot "fields",
   .lit "\n\nText: ", .slot "text",
   .lit "\n\nRespond in the format:\nField1: value1\nField2: value2\n\nExtracted Data:"]

/-- extract_structured_data, ocr_agent.py lines 306 to 341: render the
fields-extraction prompt with the comma-joined field list and the text,
send it to the model runtime, and fold the parsing loop over the lines of
the stripped response. -/
def extract_structured_data (model : String → String) (text : String) (fields : List String) :
    List (String × String) :=
  let fields_str := String.intercalate ", " fields
  let prompt := renderTemplate extraction_template fun k =>
    if k == "text" then some text else if k == "fields" then some fields_str else none
  let response := model prompt
  (splitOnChar '\n' (pyStrip response)).foldl parseStep []

/-- The key and value pairs of the colon-bearing lines of a response, split
at the first colon and stripped, in line order: the reference reading of
the parsing loop used to state its contract. -/
def colonLinePairs (response : String) : List (String × String) :=
  (splitOnChar '\n' (pyStrip response)).filterMap fun line =>
    (pySplitFirst ':' line).map fun kv => (pyStrip kv.1, pyStrip kv.2)

/-- Replacing the value at one key leaves lookups of every other key
unchanged. -/
theorem lookup_map_replace (d : List (String × String)) (k' v k : String) (hk : k ≠ k') :
    List.lookup k (d.map fun p => if p.1 == k' then (k', v) else p) = List.lookup k d := by
  induction d with
  | nil => rfl
  | cons p d ih =>
    rw [List.map_cons]
    by_cases hp : p.1 = k'
    · rw [if_pos (beq_iff_eq.mpr hp), List.lookup_cons, List.lookup_cons, hp,
        beq_eq_false_iff_ne.mpr hk]
      exact ih
    · rw [if_neg fun hc => hp (beq_iff_eq.mp hc), List.lookup_cons, List.lookup_cons]
      cases hkp : k == p.1 with
      | true => rfl
      | false => exact ih

/-- Replacing the value at a key present in the list makes lookup of that
key return the new value. -/
theorem lookup_map_replace_self (d : List (String × String)) (v k : String)
    (h : (d.any fun p => p.1 == k) = true) :
    List.lookup k (d.map fun p => if p.1 == k then (k, v) else p) = some v := by
  induction d with
  | nil => cases h
  | cons q d ih =>
    rw [List.map_cons]
    by_cases hq : q.1 = k
    · rw [if_pos (beq_iff_eq.mpr hq), List.lookup_cons, beq_self_eq_true]
    · rw [if_neg fun hc => hq (beq_iff_eq.mp hc), List.lookup_cons,
        beq_eq_false_iff_ne.mpr fun hh => hq hh.symm]
      have h' : (d.any fun p => p.1 == k) = true := by
        simpa [List.any_cons, beq_eq_false_iff_ne.mpr hq] using h
      exact ih h'

/-- A key on which the membership scan fails is absent, so its lookup gives
nothing. -/
theorem lookup_not_mem_none (d : List (String × String)) (k : String)
    (h : (d.any fun p => p.1 == k) = false) :
    List.lookup k d = none := by
  induction d with
  | nil => rfl
  | cons q d ih =>
    have hsplit := h
    rw [List.any_cons, Bool.or_eq_false_iff] at hsplit
    have hq : k ≠ q.1 := fun hh => by
      rw [beq_eq_false_iff_ne] at hsplit
      exact hsplit.1 hh.symm
    rw [List.lookup_cons, beq_eq_false_iff_ne.mpr hq]
    exact ih hsplit.2

/-- Lookup through an append tries the left list first. -/
theorem lookup_append_cases (l1 l2 : List (String × String)) (k : String) :
    List.lookup k (l1 ++ l2)
      = match List.lookup k l1 with
        | some v => some v
        | none => List.lookup k l2 := by
  induction l1 with
  | nil => rfl
  | cons p l1 ih =>
    rw [List.cons_append, List.lookup_cons, List.lookup_cons]
    cases hkp : k == p.1 with
    | true => rfl
    | false => exact ih

/-- A key absent from the key column of an association list has no lookup
result. -/
theorem lookup_eq_none_of_not_mem_keys (l : List (String × String)) (k : String)
    (h : k ∉ l.map Prod.fst) : List.lookup k l = none := by
  induction l with
  | nil => rfl
  | cons p l ih =>
    rw [List.map_cons, List.mem_cons] at h
    push_neg at h
    rw [List.lookup_cons, beq_eq_false_iff_ne.mpr h.1]
    exact ih h.2

/-- Lookup after an overwriting insertion: the inserted key maps to the new
value and every other key is untouched. -/
theorem lookup_dictInsert (d : List (String × String)) (k' v k : String) :
    List.lookup k (dictInsert d k' v) = if k = k' then some v else List.lookup k d := by
  by_cases hany : (d.any fun p => p.1 == k') = true
  · rw [dictInsert, if_pos hany]
    by_cases hk : k = k'
    · subst hk
      rw [if_pos rfl]
      exact lookup_map_replace_self d v k hany
    · rw [if_neg hk]
      exact lookup_map_replace d k' v k hk
  · rw [dictInsert, if_neg hany]
    rw [lookup_append_cases]
    rw [Bool.not_eq_true] at hany
    by_cases hk : k = k'
    · subst hk
      rw [lookup_not_mem_none d k hany, if_pos rfl]
      show List.lookup k [(k, v)] = some v
      rw [List.lookup_cons, beq_self_eq_true]
    · rw [if_neg hk]
      cases hlk : List.lookup k d with
      | some v' => rfl
      | none =>
        show List.lookup k [(k', v)] = none
        rw [List.lookup_cons, beq_eq_false_iff_ne.mpr hk]
        rfl

/-- Folding the parsing loop over a line list realizes last-wins lookup on
the colon-split stripped pairs of those lines, falling back to the starting
dictionary. -/
theorem lookup_foldl_parseStep (lines : List String) (d : List (String × String)) (k : String) :
    List.lookup k (lines.foldl parseStep d)
      = match List.lookup k (lines.filterMap fun line =>
            (pySplitFirst ':' line).map fun kv => (pyStrip kv.1, pyStrip kv.2)).reverse with
        | some v => some v
        | none => List.lookup k d := by
  induction lines generalizing d with
  | nil => rfl
  | cons l ls ih =>
    rw [List.foldl_cons, List.filterMap_cons]
    cases hsp : pySplitFirst ':' l with
    | none =>
      rw [show parseStep d l = d by rw [parseStep, hsp]]
      simp only [hsp, Option.map_none']
      exact ih d
    | some kv =>
      rw [show parseStep d l = dictInsert d (pyStrip kv.1) (pyStrip kv.2) by
        rw [parseStep, hsp]]
      rw [ih (dictInsert d (pyStrip kv.1) (pyStrip kv.2))]
      simp only [hsp, Option.map_some']
      rw [List.reverse_cons, lookup_append_cases, lookup_dictInsert]
      cases hrev : List.lookup k (ls.filterMap fun line =>
          (pySplitFirst ':' line).map fun kv => (pyStrip kv.1, pyStrip kv.2)).reverse with
      | some v => rfl
      | none =>
        by_cases hk1 : k = pyStrip kv.1
        · subst hk1
          rw [if_pos rfl, List.lookup_cons, beq_self_eq_true]
        · rw [if_neg hk1, List.lookup_cons, beq_eq_false_iff_ne.mpr hk1]
          rfl

/-- The parsed dictionary of a response answers lookups exactly like the
reversed list of its colon-line pairs: the last occurrence of a key wins. -/
theorem lookup_parse_response (response : String) (k : String) :
    List.lookup k ((splitOnChar '\n' (pyStrip response)).foldl parseStep [])
      = List.lookup k (colonLinePairs response).reverse := by
  rw [colonLinePairs, lookup_foldl_parseStep]
  cases List.lookup k ((splitOnChar '\n' (pyStrip response)).filterMap fun line =>
      (pySplitFirst ':' line).map fun kv => (pyStrip kv.1, pyStrip kv.2)).reverse with
  | some v => rfl
  | none => rfl

/-- C3: extract_structured_data parses the model response line by line,
splitting each colon-bearing line at its first colon into a stripped key
and value, ignoring lines without a colon, with the last occurrence of a
key winning; the spec example response yields Name mapped to Jo and Total
mapped to 15. -/
theorem c3_colon_line_parsing :
    (∀ (text : String) (fields : List String) (response : String) (k : String),
      List.lookup k (extract_structured_data (fun _ => response) text fields)
        = List.lookup k (colonLinePairs response).reverse) ∧
    extract_structured_data (fun _ => "Name: Jo\nTotal: 12\nJunkLine\nTotal: 15") "t"
        ["Name", "Total"]
      = [("Name", "Jo"), ("Total", "15")] := by
  constructor
  · intro text fields response k
    exact lookup_parse_response response k
  · decide

/-- Key membership after an overwriting insertion: exactly the old keys
plus the inserted key. -/
theorem mem_keys_dictInsert (d : List (String × String)) (k' v k : String) :
    k ∈ (dictInsert d k' v).map Prod.fst ↔ (k ∈ d.map Prod.fst ∨ k = k') := by
  have hkeys : ((d.map fun p => if p.1 == k' then (k', v) else p).map Prod.fst)
      = d.map Prod.fst := by
    induction d with
    | nil => rfl
    | cons p d ih =>
      rw [List.map_cons, List.map_cons, List.map_cons]
      by_cases hp : p.1 = k'
      · rw [if_pos (beq_iff_eq.mpr hp)]
        rw [show ((k', v) : String × String).1 = p.1 from hp.symm]
        rw [ih]
      · rw [if_neg fun hc => hp (beq_iff_eq.mp hc)]
        rw [ih]
  rw [dictInsert]
  by_cases hany : (d.any fun p => p.1 == k') = true
  · rw [if_pos hany]
    rw [hkeys]
    obtain ⟨p, hp, hpk⟩ := List.any_eq_true.mp hany
    constructor
    · exact Or.inl
    · rintro (hin | rfl)
      · exact hin
      · rw [List.mem_map]
        exact ⟨p, hp, beq_iff_eq.mp hpk⟩
  · rw [if_neg hany, List.map_append, List.mem_append]
    simp

/-- Key membership after folding the parsing loop: the starting keys plus
the keys of the colon-split stripped pairs of the lines. -/
theorem mem_keys_foldl_parseStep (lines : List String) (d : List (String × String)) (k : String) :
    k ∈ ((lines.foldl parseStep d).map Prod.fst)
      ↔ (k ∈ d.map Prod.fst ∨ k ∈ (lines.filterMap fun line =>
            (pySplitFirst ':' line).map fun kv => (pyStrip kv.1, pyStrip kv.2)).map Prod.fst) := by
  induction lines generalizing d with
  | nil => simp
  | cons l ls ih =>
    rw [List.foldl_cons, List.filterMap_cons]
    cases hsp : pySplitFirst ':' l with
    | none =>
      rw [show parseStep d l = d by rw [parseStep, hsp]]
      simp only [hsp, Option.map_none']
      exact ih d
    | some kv =>
      rw [show parseStep d l = dictInsert d (pyStrip kv.1) (pyStrip kv.2) by
        rw [parseStep, hsp]]
      rw [ih (dictInsert d (pyStrip kv.1) (pyStrip kv.2))]
      rw [mem_keys_dictInsert]
      simp only [hsp, Option.map_some', List.map_cons, List.mem_cons]
      tauto

/-- C9 as stated is false: the parser inserts every colon line of the model
response, so a key outside the requested field list can appear in the
result; here the response key Bogus is returned although only Name was
requested. -/
theorem c9_only_requested_keys_counterexample :
    (extract_structured_data (fun _ => "Bogus: 1") "t" ["Name"]).map Prod.fst = ["Bogus"] ∧
    "Bogus" ∉ (["Name"] : List String) := by
  decide

/-- C9 amended: the keys of the mapping returned by extract_structured_data
are exactly the stripped keys of the colon-bearing response lines,
regardless of the requested field list; and a requested field absent from
those response keys is absent from the mapping rather than bound to a
default. -/
theorem c9_keys_follow_response :
    ∀ (text : String) (fields : List String) (response : String) (k : String),
      (k ∈ (extract_structured_data (fun _ => response) text fields).map Prod.fst
        ↔ k ∈ (colonLinePairs response).map Prod.fst) ∧
      (k ∉ (colonLinePairs response).map Prod.fst →
        List.lookup k (extract_structured_data (fun _ => response) text fields) = none) := by
  intro text fields response k
  constructor
  · have h := mem_keys_foldl_parseStep (splitOnChar '\n' (pyStrip response)) [] k
    simpa [colonLinePairs] using h
  · intro hnot
    have h : List.lookup k (extract_structured_data (fun _ => response) text fields)
        = List.lookup k (colonLinePairs response).reverse := lookup_parse_response response k
    rw [h]
    apply lookup_eq_none_of_not_mem_keys
    rw [List.map_reverse, List.mem_reverse]
    exact hnot

/-- Witness for C9 amended: a field requested but missing from the response
is absent from the mapping. -/
theorem c9_keys_follow_response_witness :
    List.lookup "B" (extract_structured_data (fun _ => "A: 1") "t" ["A", "B"]) = none :=
  (c9_keys_follow_response "t" ["A", "B"] "A: 1" "B").2 (by decide)

/-- The sentiment analysis result record of analyze_sentiment, ai_agent.py
lines 192 to 196. -/
structure SentimentResult where
  sentiment : String
  explanation : String
  raw_response : String
deriving Repr, DecidableEq

/-- The sentiment prompt template of analyze_sentiment, ai_agent.py lines
175 to 183. -/
def sentiment_template : Template :=
  [.lit "Analyze the sentiment of the following text. \nRespond with: POSITIVE, NEGATIVE, or NEUTRAL, followed by a brief explanation.\n\nText: ",
   .slot "text", .lit "\n\nSentiment:"]

/-- analyze_sentiment, ai_agent.py lines 165 to 196: render the sentiment
prompt, send it to the model runtime, split the stripped response into
lines, take the stripped uppercased first line as the sentiment, join the
remaining lines with single spaces and strip them as the explanation when
more than one line exists, and keep the stripped response verbatim. -/
def analyze_sentiment (model : String → String) (text : String) : SentimentResult :=
  let prompt := renderTemplate sentiment_template fun k => if k == "text" then some text else none
  let response := model prompt
  let lines := splitOnChar '\n' (pyStrip response)
  let sentiment := pyUpper (pyStrip (lines.headD ""))
  let explanation :=
    if 1 < lines.length then pyStrip (String.intercalate " " (lines.drop 1)) else ""
  { sentiment := sentiment, explanation := explanation, raw_response := pyStrip response }

/-- C8 as stated is false: when the first response line matches none of the
three labels, analyze_sentiment returns the uppercased first line, not the
verbatim first line; here the response mixed followed by an explanation
yields the sentiment MIXED, which differs from the verbatim first line
mixed, whose case-normalization matches none of POSITIVE, NEGATIVE,
NEUTRAL. -/
theorem c8_verbatim_fallback_counterexample :
    (analyze_sentiment (fun _ => "mixed\nok") "t").sentiment = "MIXED" ∧
    "MIXED" ≠ "mixed" ∧
    pyUpper (pyStrip "mixed") ∉ (["POSITIVE", "NEGATIVE", "NEUTRAL"] : List String) := by
  decide

/-- C8 amended: the sentiment is the stripped first line of the stripped
response, uppercased (so a first line matching positive, negative or
neutral in any case becomes the canonical label, and any other first line
is returned uppercased rather than verbatim); the explanation is the
remaining lines joined by single spaces and then stripped, empty for a
one-line response; the raw response is the stripped response. -/
theorem c8_sentiment_parse_amended :
    ∀ (text response : String),
      (analyze_sentiment (fun _ => response) text).sentiment
        = pyUpper (pyStrip ((splitOnChar '\n' (pyStrip response)).headD "")) ∧
      (analyze_sentiment (fun _ => response) text).raw_response = pyStrip response ∧
      ((splitOnChar '\n' (pyStrip response)).length ≤ 1 →
        (analyze_sentiment (fun _ => response) text).explanation = "") ∧
      (1 < (splitOnChar '\n' (pyStrip response)).length →
        (analyze_sentiment (fun _ => response) text).explanation
          = pyStrip (String.intercalate " " ((splitOnChar '\n' (pyStrip response)).drop 1))) := by
  intro text response
  refine ⟨rfl, rfl, ?_, ?_⟩
  · intro hle
    have hnot : ¬(1 < (splitOnChar '\n' (pyStrip response)).length) := by omega
    simp only [analyze_sentiment]
    rw [if_neg hnot]
  · intro hlt
    simp only [analyze_sentiment]
    rw [if_pos hlt]

/-- Witness for C8 amended on a two-line response with a recognized label
in mixed case. -/
theorem c8_sentiment_parse_amended_witness :
    (analyze_sentiment (fun _ => "Positive\nGood vibes") "t").sentiment
        = pyUpper (pyStrip ((splitOnChar '\n' (pyStrip "Positive\nGood vibes")).headD "")) ∧
    (analyze_sentiment (fun _ => "Positive\nGood vibes") "t").raw_response
        = pyStrip "Positive\nGood vibes" ∧
    ((splitOnChar '\n' (pyStrip "Positive\nGood vibes")).length ≤ 1 →
      (analyze_sentiment (fun _ => "Positive\nGood vibes") "t").explanation = "") ∧
    (1 < (splitOnChar '\n' (pyStrip "Positive\nGood vibes")).length →
      (analyze_sentiment (fun _ => "Positive\nGood vibes") "t").explanation
        = pyStrip (String.intercalate " "
            ((splitOnChar '\n' (pyStrip "Positive\nGood vibes")).drop 1))) :=
  c8_sentiment_parse_amended "t" "Positive\nGood vibes"

/-- The failure surfaced by the dispatch validation: a missing insertion
point named by its key. -/
inductive DispatchError where
  | MissingParameter : String → DispatchError
deriving Repr, DecidableEq

/-- Modelled from the spec: the PromptDispatcher dispatch operation. The
repository hands its templates and keyword parameters to an external
templating library whose validation code is not under src; per the spec,
dispatch validates that every referenced insertion point is present in the
parameters, fails with MissingParameter naming the missing key on any
omission, and otherwise renders the template by literal, non-recursive
substitution of each insertion point by its parameter value. -/
def dispatch (t : Template) (params : List (String × String)) : Except DispatchError String :=
  match (Template.slotNames t).find? (fun n => (params.lookup n).isNone) with
  | some n => .error (.MissingParameter n)
  | none => .ok (renderTemplate t fun n => params.lookup n)

/-- The chat prompt template of chat, ai_agent.py lines 89 to 99, used with
dispatch as the concrete witness template. -/
def chat_template : Template :=
  [.lit "You are a helpful AI assistant. Use the conversation history to provide context-aware responses.\n\nChat History:\n",
   .slot "chat_history", .lit "\n\nCurrent Message: ", .slot "message", .lit "\n\nResponse:"]

/-- C7: for a complete parameter set, dispatch renders with every insertion
point replaced by its parameter value and none left unsubstituted; for a
parameter set missing a required insertion point, dispatch fails with a
MissingParameter error naming a genuinely missing required key. -/
theorem c7_dispatch_validates_parameters :
    ∀ (t : Template) (params : List (String × String)),
      ((∀ n ∈ Template.slotNames t, (params.lookup n).isSome) →
        ∃ vals : String → String,
          (∀ n ∈ Template.slotNames t, params.lookup n = some (vals n)) ∧
          dispatch t params
            = Except.ok (String.join (t.map fun p =>
                match p with
                | .lit s => s
                | .slot n => vals n))) ∧
      ((∃ n ∈ Template.slotNames t, params.lookup n = none) →
        ∃ n, n ∈ Template.slotNames t ∧ params.lookup n = none ∧
          dispatch t params = Except.error (DispatchError.MissingParameter n)) := by
  intro t params
  constructor
  · intro hall
    refine ⟨fun n => (params.lookup n).getD "", ?_, ?_⟩
    · intro n hn
      cases hv : params.lookup n with
      | some v => simp [hv]
      | none =>
        have := hall n hn
        rw [hv] at this
        cases this
    · have hfind : (Template.slotNames t).find? (fun n => (params.lookup n).isNone) = none := by
        rw [List.find?_eq_none]
        intro n hn
        have h := hall n hn
        cases hv : params.lookup n with
        | some v => simp [hv]
        | none =>
          rw [hv] at h
          cases h
      rw [dispatch, hfind]
      rfl
  · intro hmissing
    have hsome : ((Template.slotNames t).find? fun n => (params.lookup n).isNone).isSome := by
      rw [List.find?_isSome]
      obtain ⟨n, hn, hnone⟩ := hmissing
      exact ⟨n, hn, by simp [hnone]⟩
    obtain ⟨m, hm⟩ := Option.isSome_iff_exists.mp hsome
    refine ⟨m, List.mem_of_find?_eq_some hm, ?_, ?_⟩
    · have := List.find?_some hm
      simpa [Option.isNone_iff_eq_none] using this
    · rw [dispatch, hm]

/-- Witness for C7: the chat template renders completely with both
parameters supplied, and dispatch with the history parameter omitted fails
naming chat_history. -/
theorem c7_dispatch_validates_parameters_witness :
    (∃ vals : String → String,
      (∀ n ∈ Template.slotNames chat_template,
        List.lookup n [("chat_history", ""), ("message", "hi")] = some (vals n)) ∧
      dispatch chat_template [("chat_history", ""), ("message", "hi")]
        = Except.ok (String.join (chat_template.map fun p =>
            match p with
            | .lit s => s
            | .slot n => vals n))) ∧
    (∃ n, n ∈ Template.slotNames chat_template ∧
      List.lookup n [("message", "hi")] = none ∧
      dispatch chat_template [("message", "hi")]
        = Except.error (DispatchError.MissingParameter n)) :=
  ⟨(c7_dispatch_validates_parameters chat_template
      [("chat_history", ""), ("message", "hi")]).1 (by decide),
   (c7_dispatch_validates_parameters chat_template [("message", "hi")]).2
      ⟨"chat_history", by decide, by decide⟩⟩
